import Mathlib

/-!
Verification of the SystemViz node-graph widget (system-viz.js).

The widget is embedded shallowly: the mutable instance becomes a `State`
record, each event handler becomes a pure step function on `State`, and the
quantities the source draws from `Math.cos`, `Math.sin` and `Math.random`
are abstracted into an `Oracles` record of arbitrary rational-valued
functions, so that theorems quantify over every possible jitter/phase/trig
outcome.  Pixel coordinates are rationals; `Math.sqrt(d) < b` is embedded as
the equivalent `0 < b ∧ d < b * b` (both sides of the source comparison are
nonnegative), and the equivalence with the genuine Euclidean distance over
the reals is proved in the hit-testing theorem.
-/

namespace SystemViz

/-- One entry of the static `nodesData` declaration list. -/
structure NodeData where
  id : String
  label : String
  group : String
deriving Repr, DecidableEq

/-- An rgb color from the `groupColors` table. -/
structure Rgb where
  r : Nat
  g : Nat
  b : Nat
deriving Repr, DecidableEq

/-- The shipped `nodesData` list (12 subsystem nodes). -/
def nodesData : List NodeData :=
  [ { id := "core",       label := "Sistema Central", group := "core" },
    { id := "frontend",   label := "Frontend",        group := "software" },
    { id := "backend",    label := "Backend",         group := "software" },
    { id := "database",   label := "Base de Datos",   group := "software" },
    { id := "network",    label := "Capa de Red",     group := "infra" },
    { id := "security",   label := "Seguridad",       group := "infra" },
    { id := "ml",         label := "Pipeline ML",     group := "data" },
    { id := "analytics",  label := "Analisis",        group := "data" },
    { id := "iot",        label := "Sensores IoT",    group := "hardware" },
    { id := "control",    label := "Unidad Control",  group := "hardware" },
    { id := "monitoring", label := "Monitoreo",       group := "ops" },
    { id := "deploy",     label := "Despliegue",      group := "ops" } ]

/-- The shipped `edgesData` list (17 edges, pairs of node ids). -/
def edgesData : List (String × String) :=
  [ ("core", "frontend"), ("core", "backend"), ("core", "network"),
    ("core", "security"), ("core", "monitoring"),
    ("frontend", "backend"), ("backend", "database"),
    ("backend", "ml"), ("ml", "analytics"),
    ("network", "security"), ("network", "iot"),
    ("iot", "control"), ("control", "monitoring"),
    ("monitoring", "deploy"), ("deploy", "backend"),
    ("analytics", "monitoring"), ("database", "analytics") ]

/-- The `groupColors` lookup table; a JS property read of an unknown key
yields undefined, modelled as `none`. -/
def groupColors (group : String) : Option Rgb :=
  if group = "core" then some ⟨0, 255, 65⟩
  else if group = "software" then some ⟨50, 220, 100⟩
  else if group = "infra" then some ⟨0, 200, 80⟩
  else if group = "data" then some ⟨100, 255, 50⟩
  else if group = "hardware" then some ⟨0, 180, 60⟩
  else if group = "ops" then some ⟨80, 255, 120⟩
  else none

/-- A node object as built by `_layoutNodes`. -/
structure Node where
  id : String
  label : String
  group : String
  x : ℚ
  y : ℚ
  baseX : ℚ
  baseY : ℚ
  radius : ℚ
  active : Bool
  pulsePhase : ℚ
  color : Option Rgb
deriving Repr, DecidableEq

/-- An edge object as built by `_buildEdges`.  The source names the fields
`from` and `to`; `from` is a reserved word in Lean, hence `fromIdx`/`toIdx`.
A lookup `nodeMap[id]` of an id that was never inserted yields undefined in
JS, modelled as `none`. -/
structure Edge where
  fromIdx : Option Nat
  toIdx : Option Nat
deriving Repr, DecidableEq

/-- The three HUD strings `_updateHUD` pushes to its display sinks. -/
structure Metrics where
  activeText : String
  connectionsText : String
  loadText : String
deriving Repr, DecidableEq

/-- Abstract stand-ins for the transcendental and random quantities the
source consumes.  `cosA i` and `sinA i` are the values of
`Math.cos(angle)` and `Math.sin(angle)` for the layout angle of index `i`;
`jitter i` is `(Math.random() - 0.5) * 30`; `phase i` is
`Math.random() * Math.PI * 2`; `sinT t` and `cosT t` are `Math.sin(t)` and
`Math.cos(t)` as used for the per-frame drift.  Quantifying theorems over
an arbitrary `Oracles` makes them hold for every trig/random outcome. -/
structure Oracles where
  cosA : Nat → ℚ
  sinA : Nat → ℚ
  jitter : Nat → ℚ
  phase : Nat → ℚ
  sinT : ℚ → ℚ
  cosT : ℚ → ℚ

/-- The mutable fields of a SystemViz instance.  `pendingFrame` records
whether a callback scheduled through requestAnimationFrame is still
pending (true after `_animate` reschedules, false once
cancelAnimationFrame has cancelled it); `animId` is the stored handle. -/
structure State where
  width : ℚ
  height : ℚ
  nodesData : List NodeData
  edgesData : List (String × String)
  nodes : List Node
  edges : List Edge
  mouse : ℚ × ℚ
  hoveredNode : Option Nat
  animId : Option Nat
  pendingFrame : Bool
  time : ℚ
deriving Repr, DecidableEq

/-- The node object `_layoutNodes` builds for the entry `data` at index
`i`: `x = cx + Math.cos(angle) * (r + jitter)` etc., with the trig and
random values drawn from the oracle.  The central node uses `r = 0` and
`jitter = 0`, so its position is exactly `(cx, cy)` whatever the oracle
returns.  Every node is created with `active: false`. -/
def layoutNode (w h : ℚ) (o : Oracles) (i : Nat) (data : NodeData) : Node :=
  let cx := w / 2
  let cy := h / 2 - 30
  let radius := min w h * (32 / 100)
  let r := if data.group = "core" then 0 else radius
  let jitter := if data.group = "core" then 0 else o.jitter i
  { id := data.id, label := data.label, group := data.group,
    x := cx + o.cosA i * (r + jitter),
    y := cy + o.sinA i * (r + jitter),
    baseX := cx + o.cosA i * (r + jitter),
    baseY := cy + o.sinA i * (r + jitter),
    radius := if data.group = "core" then 28 else 22,
    active := false,
    pulsePhase := o.phase i,
    color := groupColors data.group }

/-- The index-carrying recursion behind
`this.nodes = this.nodesData.map((data, i) => ...)`. -/
def layoutNodesFrom (w h : ℚ) (o : Oracles) : Nat → List NodeData → List Node
  | _, [] => []
  | i, d :: rest => layoutNode w h o i d :: layoutNodesFrom w h o (i + 1) rest

/-- `_layoutNodes`: map the static node list, with its indices, to node
objects. -/
def layoutNodes (w h : ℚ) (o : Oracles) (nd : List NodeData) : List Node :=
  layoutNodesFrom w h o 0 nd

/-- The index-carrying recursion behind the `nodeMap` object built at the
top of `_buildEdges`: `this.nodes.forEach((n, i) => { nodeMap[n.id] = i; })`.
A later insertion overwrites an earlier one with the same id, exactly as JS
property assignment does, so the suffix of the list is consulted first. -/
def nodeMapFrom : Nat → List Node → String → Option Nat
  | _, [], _ => none
  | i, n :: rest, s =>
    match nodeMapFrom (i + 1) rest s with
    | some j => some j
    | none => if s = n.id then some i else none

/-- The finished `nodeMap` lookup. -/
def nodeMap (nodes : List Node) : String → Option Nat :=
  nodeMapFrom 0 nodes

/-- `_buildEdges`: resolve each declared edge to node indices.  An unknown
id resolves to `none` (undefined in JS); the source has no error reporting
here and returns the records as built. -/
def buildEdges (nodes : List Node) (ed : List (String × String)) : List Edge :=
  ed.map fun p => { fromIdx := nodeMap nodes p.1, toIdx := nodeMap nodes p.2 }

/-- Click/hover tolerance: the source tests `< node.radius + 5`. -/
def clickTol : ℚ := 5

/-- Touch tolerance: the source tests `< node.radius + 10`. -/
def touchTol : ℚ := 10

/-- The source hit test `Math.sqrt(dx*dx + dy*dy) < node.radius + tol`.
For a nonnegative radicand, `Real.sqrt d < b` holds iff
`0 < b ∧ d < b * b`, which keeps the test inside ℚ; the equivalence with
the real Euclidean distance is proved in the hit-testing theorem. -/
def hitTest (mx my : ℚ) (n : Node) (tol : ℚ) : Bool :=
  let dx := mx - n.x
  let dy := my - n.y
  decide (0 < n.radius + tol) &&
    decide (dx * dx + dy * dy < (n.radius + tol) * (n.radius + tol))

/-- The loop body shared by the click and touchstart handlers:
`for (const node of this.nodes) { if (hit) { node.active = !node.active;
this._updateHUD(); break; } }`.  Returns the updated node list and whether
a node was toggled (equivalently, whether `_updateHUD` was invoked). -/
def toggleFirstHit (mx my tol : ℚ) : List Node → List Node × Bool
  | [] => ([], false)
  | n :: rest =>
    if hitTest mx my n tol then
      ({ n with active := !n.active } :: rest, true)
    else
      let r := toggleFirstHit mx my tol rest
      (n :: r.1, r.2)

/-- The loop of `_updateHover`: index of the first node the mouse hits. -/
def firstHit (mx my tol : ℚ) : List Node → Option Nat
  | [] => none
  | n :: rest =>
    if hitTest mx my n tol then some 0
    else (firstHit mx my tol rest).map (· + 1)

/-- `Math.round` on a finite value: round half toward positive infinity. -/
def jsRound (q : ℚ) : ℤ := ⌊q + 1 / 2⌋

/-- `const active = this.nodes.filter(n => n.active).length`. -/
def activeCount (nodes : List Node) : Nat :=
  (nodes.filter (fun n => n.active)).length

/-- `const load = Math.round((active / total) * 100)`. -/
def loadPercent (active total : Nat) : ℤ :=
  jsRound ((active : ℚ) / (total : ℚ) * 100)

/-- One predicate evaluation of the `_updateHUD` filter
`this.nodes[e.from].active && this.nodes[e.to].active` (also the
`bothActive` computation of `_drawEdges`).  JS `&&` short-circuits, and
indexing `this.nodes` with an unresolved (undefined) or out-of-range index
yields undefined, whose `.active` read throws a TypeError — modelled as
`none`. -/
def edgeBothActive (nodes : List Node) (e : Edge) : Option Bool :=
  match e.fromIdx.bind nodes.get? with
  | none => none
  | some a =>
    if a.active then
      match e.toIdx.bind nodes.get? with
      | none => none
      | some b => some b.active
    else
      some false

/-- `this.edges.filter(e => this.nodes[e.from].active &&
this.nodes[e.to].active)`: evaluates the predicate edge by edge in order;
a thrown TypeError aborts the whole call (`none`). -/
def filterBothActive (nodes : List Node) : List Edge → Option (List Edge)
  | [] => some []
  | e :: rest =>
    match edgeBothActive nodes e with
    | none => none
    | some b =>
      (filterBothActive nodes rest).map (fun r => if b then e :: r else r)

/-- `_updateHUD`: compute the three metric strings and push them.  Pushing
to a missing sink element is a no-op in the source (`setEl` checks the
element), so the observable effect is exactly the `Metrics` value; `none`
models the TypeError thrown while filtering over a dangling edge. -/
def updateHUD (nodes : List Node) (edges : List Edge) : Option Metrics :=
  let active := activeCount nodes
  let total := nodes.length
  (filterBothActive nodes edges).map fun kept =>
    let activeEdges := kept.length
    let load := loadPercent active total
    { activeText := toString active ++ " / " ++ toString total,
      connectionsText := toString activeEdges,
      loadText := toString load ++ "%" }

/-- The click handler: toggle the first hit node (tolerance 5) and run
`_updateHUD` once; a miss changes nothing and runs no HUD update.  The
second component counts the `_updateHUD` invocations the handler makes. -/
def clickStep (mx my : ℚ) (s : State) : State × Nat :=
  let r := toggleFirstHit mx my clickTol s.nodes
  ({ s with nodes := r.1 }, if r.2 then 1 else 0)

/-- The touchstart handler: identical loop with tolerance 10. -/
def touchStep (mx my : ℚ) (s : State) : State × Nat :=
  let r := toggleFirstHit mx my touchTol s.nodes
  ({ s with nodes := r.1 }, if r.2 then 1 else 0)

/-- `_updateHover`: set `hoveredNode` to the first node the current mouse
position hits (the source stores the node object; the model stores its
index, which identifies it uniquely). -/
def updateHover (s : State) : State :=
  { s with hoveredNode := firstHit s.mouse.1 s.mouse.2 clickTol s.nodes }

/-- The `activate-all` button handler:
`this.nodes.forEach(n => { n.active = true; }); this._updateHUD();`. -/
def activateAllStep (s : State) : State × Nat :=
  ({ s with nodes := s.nodes.map fun n => { n with active := true } }, 1)

/-- The `reset-all` button handler:
`this.nodes.forEach(n => { n.active = false; }); this._updateHUD();`. -/
def resetAllStep (s : State) : State × Nat :=
  ({ s with nodes := s.nodes.map fun n => { n with active := false } }, 1)

/-- One execution of the `_animate` body: advance `time` by 0.015, update
every node's rendered position to
`base + (Math.sin(time + phase) * 3, Math.cos(time * 0.8 + phase) * 3)`
(performed inside `_drawNodes`), and reschedule via
requestAnimationFrame (drawing itself has no further observable state). -/
def animateOnce (o : Oracles) (s : State) : State :=
  let t := s.time + 15 / 1000
  { s with
    time := t,
    nodes := s.nodes.map fun n =>
      { n with
        x := n.baseX + o.sinT (t + n.pulsePhase) * 3,
        y := n.baseY + o.cosT (t * (8 / 10) + n.pulsePhase) * 3 },
    animId := some 1,
    pendingFrame := true }

/-- The host firing the next animation frame: runs the `_animate` body only
if a callback is still scheduled. -/
def frameStep (o : Oracles) (s : State) : State :=
  if s.pendingFrame then animateOnce o s else s

/-- The window resize handler registered in `_bindEvents`:
`this._resize(); this._layoutNodes(); this._buildEdges();`.  It does not
call `_updateHUD`. -/
def resizeStep (o : Oracles) (w h : ℚ) (s : State) : State :=
  let nodes := layoutNodes w h o s.nodesData
  { s with
    width := w,
    height := h,
    nodes := nodes,
    edges := buildEdges nodes s.edgesData }

/-- `destroy()`: `if (this.animId) cancelAnimationFrame(this.animId);`.
Cancelling removes the pending callback; nothing else changes — in
particular no event handler is unregistered and no liveness flag is set. -/
def destroyStep (s : State) : State :=
  match s.animId with
  | some _ => { s with pendingFrame := false }
  | none => s

/-- The result of running the constructor: the state after `_init` and the
metrics published by the `_updateHUD()` call at the end of `_bindEvents`
(the first and only publication during construction). -/
structure ConstructResult where
  state : State
  published : Option Metrics
deriving Repr, DecidableEq

/-- The constructor plus `_init` (assuming the canvas element exists):
`_resize` fixes the dimensions, `_layoutNodes` and `_buildEdges` build the
arrays, `_bindEvents` registers the handlers and runs `_updateHUD` once,
and `_animate` runs one frame body and schedules the next. -/
def construct (o : Oracles) (w h : ℚ) (nd : List NodeData)
    (ed : List (String × String)) : ConstructResult :=
  let nodes := layoutNodes w h o nd
  let edges := buildEdges nodes ed
  let s : State :=
    { width := w, height := h, nodesData := nd, edgesData := ed,
      nodes := nodes, edges := edges, mouse := (-1000, -1000),
      hoveredNode := none, animId := none, pendingFrame := false,
      time := 0 }
  { state := animateOnce o s, published := updateHUD s.nodes s.edges }

/-- A concrete oracle used to evaluate the model on the shipped data: the
layout trig values are 1, jitter and phase are 0, and the frame drift is 0.
With an 800 by 600 surface this places the central node alone at
(400, 270) and every other node at (592, 462). -/
def oracle1 : Oracles :=
  { cosA := fun _ => 1, sinA := fun _ => 1, jitter := fun _ => 0,
    phase := fun _ => 0, sinT := fun _ => 0, cosT := fun _ => 0 }

/-- The shipped instance on an 800 by 600 surface, after one click at
(400, 270): the click toggles the central node "core" on. -/
def stateAfterClick : State :=
  (clickStep 400 270 (construct oracle1 800 600 nodesData edgesData).state).1

/-- The shipped instance right after `destroy()` was called on
`stateAfterClick`. -/
def stateDestroyed : State := destroyStep stateAfterClick

/-- A small concrete node at the origin, used by witnesses. -/
def nodeW (idN : String) (act : Bool) : Node :=
  { id := idN, label := idN, group := "software", x := 0, y := 0,
    baseX := 0, baseY := 0, radius := 22, active := act, pulsePhase := 0,
    color := groupColors "software" }

/-- A two-node state whose nodes both sit at the origin (overlapping),
used by witnesses. -/
def stateW : State :=
  { width := 800, height := 600, nodesData := [], edgesData := [],
    nodes := [nodeW "a" false, nodeW "b" false], edges := [],
    mouse := (-1000, -1000), hoveredNode := none, animId := some 1,
    pendingFrame := true, time := 0 }

/-- Twelve concrete nodes, the first three active, used by witnesses. -/
def nodes12 : List Node :=
  [ nodeW "a" true, nodeW "b" true, nodeW "c" true, nodeW "d" false,
    nodeW "e" false, nodeW "f" false, nodeW "g" false, nodeW "h" false,
    nodeW "i" false, nodeW "j" false, nodeW "k" false, nodeW "l" false ]

/-- Two concrete active nodes and an edge joining them, for witnesses. -/
def nodes2 : List Node := [nodeW "a" true, nodeW "b" true]

/-- The edge joining the two nodes of `nodes2`. -/
def edgeW : Edge := { fromIdx := some 0, toIdx := some 1 }

/-- Specification predicate: node `n` sits at index `i` of `nodes`, the
pointer at `(mx, my)` hits it, and no earlier node is hit — i.e. `i` is the
first match of the handler loop in declaration order. -/
def firstHitAt (mx my tol : ℚ) (nodes : List Node) (i : Nat) (n : Node) : Prop :=
  nodes.get? i = some n ∧ hitTest mx my n tol = true ∧
    ∀ j, j < i → ∀ m, nodes.get? j = some m → hitTest mx my m tol = false

/-- A list of all-inactive nodes has active count 0. -/
theorem activeCount_eq_zero (l : List Node) (h : ∀ n ∈ l, n.active = false) :
    activeCount l = 0 := by
  simp only [activeCount, List.length_eq_zero]
  exact List.filter_eq_nil_iff.mpr (by intro a ha; simp [h a ha])

/-- Every node built by the layout recursion starts inactive. -/
theorem layoutNodesFrom_active (w h : ℚ) (o : Oracles) (nd : List NodeData) :
    ∀ i, ∀ n ∈ layoutNodesFrom w h o i nd, n.active = false := by
  induction nd with
  | nil => intro i n hn; simp [layoutNodesFrom] at hn
  | cons d rest ih =>
    intro i n hn
    rw [layoutNodesFrom, List.mem_cons] at hn
    cases hn with
    | inl h => subst h; rfl
    | inr h => exact ih (i + 1) n h

/-- Every node built by the layout engine starts inactive. -/
theorem layoutNodes_active (w h : ℚ) (o : Oracles) (nd : List NodeData) :
    ∀ n ∈ layoutNodes w h o nd, n.active = false :=
  layoutNodesFrom_active w h o nd 0

/-- The layout recursion produces one node per declared entry. -/
theorem layoutNodesFrom_length (w h : ℚ) (o : Oracles) (nd : List NodeData) :
    ∀ i, (layoutNodesFrom w h o i nd).length = nd.length := by
  induction nd with
  | nil => intro i; rfl
  | cons d rest ih =>
    intro i
    rw [layoutNodesFrom]
    simp [ih (i + 1)]

/-- The layout engine produces one node per declared entry. -/
theorem layoutNodes_length (w h : ℚ) (o : Oracles) (nd : List NodeData) :
    (layoutNodes w h o nd).length = nd.length :=
  layoutNodesFrom_length w h o nd 0

/-- If the pointer hits no node in the list, the toggle loop leaves the
list unchanged and performs no HUD update. -/
theorem toggleFirstHit_of_miss (mx my tol : ℚ) (l : List Node)
    (h : ∀ n ∈ l, hitTest mx my n tol = false) :
    toggleFirstHit mx my tol l = (l, false) := by
  induction l with
  | nil => rfl
  | cons a l ih =>
    have ha := h a (List.mem_cons_self a l)
    simp only [toggleFirstHit, ha, Bool.false_eq_true, if_false]
    rw [ih (fun n hn => h n (List.mem_cons_of_mem a hn))]

/-- If index `i` carries the first node the pointer hits, the toggle loop
reports a HUD update, flips exactly that node, and leaves every other index
untouched. -/
theorem toggleFirstHit_of_hit (mx my tol : ℚ) (l : List Node) :
    ∀ (i : Nat) (n : Node), firstHitAt mx my tol l i n →
      (toggleFirstHit mx my tol l).2 = true ∧
      (toggleFirstHit mx my tol l).1.get? i = some { n with active := !n.active } ∧
      ∀ j, j ≠ i → (toggleFirstHit mx my tol l).1.get? j = l.get? j := by
  induction l with
  | nil => intro i n h; simp [firstHitAt] at h
  | cons a l ih =>
    intro i n h
    obtain ⟨hget, hhit, hmin⟩ := h
    cases i with
    | zero =>
      rw [List.get?_cons_zero] at hget
      injection hget with hg
      subst hg
      refine ⟨?_, ?_, ?_⟩
      · simp [toggleFirstHit, hhit]
      · simp [toggleFirstHit, hhit]
      · intro j hj
        cases j with
        | zero => exact absurd rfl hj
        | succ k => simp [toggleFirstHit, hhit, List.get?_cons_succ]
    | succ k =>
      have ha : hitTest mx my a tol = false :=
        hmin 0 (Nat.succ_pos k) a List.get?_cons_zero
      rw [List.get?_cons_succ] at hget
      have hmin2 : ∀ j, j < k → ∀ m, l.get? j = some m →
          hitTest mx my m tol = false := by
        intro j hj m hm
        exact hmin (j + 1) (Nat.succ_lt_succ hj) m
          (by rw [List.get?_cons_succ]; exact hm)
      obtain ⟨h1, h2, h3⟩ := ih k n ⟨hget, hhit, hmin2⟩
      refine ⟨?_, ?_, ?_⟩ <;>
        simp only [toggleFirstHit, ha, Bool.false_eq_true, if_false]
      · exact h1
      · rw [List.get?_cons_succ]
        exact h2
      · intro j hj
        cases j with
        | zero => simp
        | succ k2 =>
          rw [List.get?_cons_succ, List.get?_cons_succ]
          exact h3 k2 (fun hEq => hj (by rw [hEq]))

/-- The hover loop resolves to the first node hit in declaration order. -/
theorem firstHit_of_firstHitAt (mx my tol : ℚ) (l : List Node) :
    ∀ (i : Nat) (n : Node), firstHitAt mx my tol l i n →
      firstHit mx my tol l = some i := by
  induction l with
  | nil => intro i n h; simp [firstHitAt] at h
  | cons a l ih =>
    intro i n h
    obtain ⟨hget, hhit, hmin⟩ := h
    cases i with
    | zero =>
      rw [List.get?_cons_zero] at hget
      injection hget with hg
      subst hg
      simp [firstHit, hhit]
    | succ k =>
      have ha : hitTest mx my a tol = false :=
        hmin 0 (Nat.succ_pos k) a List.get?_cons_zero
      rw [List.get?_cons_succ] at hget
      have hmin2 : ∀ j, j < k → ∀ m, l.get? j = some m →
          hitTest mx my m tol = false := by
        intro j hj m hm
        exact hmin (j + 1) (Nat.succ_lt_succ hj) m
          (by rw [List.get?_cons_succ]; exact hm)
      have := ih k n ⟨hget, hhit, hmin2⟩
      simp [firstHit, ha, this]

/-- A miss makes the hover loop return no node. -/
theorem firstHit_of_miss (mx my tol : ℚ) (l : List Node)
    (h : ∀ n ∈ l, hitTest mx my n tol = false) :
    firstHit mx my tol l = none := by
  induction l with
  | nil => rfl
  | cons a l ih =>
    have ha := h a (List.mem_cons_self a l)
    simp [firstHit, ha, ih (fun n hn => h n (List.mem_cons_of_mem a hn))]

/-- When the connection filter completes without a dangling access, the
edges it keeps are exactly those whose evaluation returned true. -/
theorem filterBothActive_eq_filter (nodes : List Node) (l : List Edge) :
    ∀ kept, filterBothActive nodes l = some kept →
      kept = l.filter (fun e => edgeBothActive nodes e == some true) := by
  induction l with
  | nil =>
    intro kept h
    simp only [filterBothActive, Option.some_inj] at h
    simp [← h]
  | cons e rest ih =>
    intro kept h
    simp only [filterBothActive] at h
    cases hb : edgeBothActive nodes e with
    | none => rw [hb] at h; simp at h
    | some b =>
      rw [hb] at h
      cases hr : filterBothActive nodes rest with
      | none => rw [hr] at h; simp at h
      | some r =>
        rw [hr] at h
        simp only [Option.map_some', Option.some_inj] at h
        subst h
        rw [List.filter_cons]
        have heq : (edgeBothActive nodes e == some true) = b := by
          rw [hb]; cases b <;> rfl
        rw [heq, ih r hr]

/-- With every node inactive and every from-endpoint resolvable, the
connection filter keeps nothing. -/
theorem filterBothActive_of_inactive (nodes : List Node) (l : List Edge)
    (hact : ∀ n ∈ nodes, n.active = false)
    (hval : ∀ e ∈ l, (e.fromIdx.bind nodes.get?).isSome) :
    filterBothActive nodes l = some [] := by
  induction l with
  | nil => rfl
  | cons e rest ih =>
    have hv := hval e (List.mem_cons_self e rest)
    obtain ⟨a, ha⟩ := Option.isSome_iff_exists.mp hv
    obtain ⟨i, hfi, hgi⟩ := Option.bind_eq_some.mp ha
    have haf : a.active = false := hact a (List.get?_mem hgi)
    have hba : edgeBothActive nodes e = some false := by
      simp only [edgeBothActive, ha]
      simp [haf]
    simp only [filterBothActive, hba]
    rw [ih (fun e2 he2 => hval e2 (List.mem_cons_of_mem e he2))]
    rfl

/-- Shape of the metrics published by `_updateHUD` when the connection
filter completes. -/
theorem updateHUD_eq (nodes : List Node) (edges : List Edge) (kept : List Edge)
    (h : filterBothActive nodes edges = some kept) :
    updateHUD nodes edges = some
      { activeText := toString (activeCount nodes) ++ " / " ++ toString nodes.length,
        connectionsText := toString kept.length,
        loadText := toString (loadPercent (activeCount nodes) nodes.length) ++ "%" } := by
  simp [updateHUD, h]

/-- Inversion: any published metrics value has the `_updateHUD` shape. -/
theorem updateHUD_inv (nodes : List Node) (edges : List Edge) (m : Metrics)
    (h : updateHUD nodes edges = some m) :
    ∃ kept, filterBothActive nodes edges = some kept ∧
      m = { activeText := toString (activeCount nodes) ++ " / " ++ toString nodes.length,
            connectionsText := toString kept.length,
            loadText := toString (loadPercent (activeCount nodes) nodes.length) ++ "%" } := by
  simp only [updateHUD] at h
  cases hf : filterBothActive nodes edges with
  | none => rw [hf] at h; simp at h
  | some kept =>
    rw [hf] at h
    simp only [Option.map_some', Option.some_inj] at h
    exact ⟨kept, rfl, h.symm⟩

/-- `Math.round((a / t) * 100)` rewritten with the factor in front. -/
theorem loadPercent_eq (a t : Nat) :
    loadPercent a t = jsRound (100 * (a : ℚ) / (t : ℚ)) := by
  unfold loadPercent
  congr 1
  ring

/-- A zero active count always publishes a zero load. -/
theorem loadPercent_zero (t : Nat) : loadPercent 0 t = 0 := by
  simp only [loadPercent, jsRound, Nat.cast_zero, zero_div, zero_mul, zero_add]
  rw [Int.floor_eq_zero_iff]
  norm_num [Set.mem_Ico]

/-- C1: the claim fails on the code.  In the shipped instance, clicking the
central node "core" makes it active, but a subsequent resize event re-runs
the layout, which rebuilds every node record with `active: false`: the
active flag is not preserved, the user's selection is wiped.  This theorem
evaluates the model at that failing input. -/
theorem c1_resize_resets_active :
    ((stateAfterClick.nodes.get? 0).map (fun n => (n.id, n.active))) =
      some ("core", true) ∧
    (((resizeStep oracle1 800 600 stateAfterClick).nodes.get? 0).map
      (fun n => (n.id, n.active))) = some ("core", false) := by
  constructor
  · norm_num +decide [stateAfterClick, clickStep, toggleFirstHit, hitTest, clickTol,
      construct, animateOnce, layoutNodes, layoutNodesFrom, layoutNode, nodesData,
      edgesData, oracle1, buildEdges, nodeMap, nodeMapFrom, groupColors]
  · norm_num +decide [resizeStep, stateAfterClick, clickStep, toggleFirstHit, hitTest,
      clickTol, construct, animateOnce, layoutNodes, layoutNodesFrom, layoutNode,
      nodesData, edgesData, oracle1, buildEdges, nodeMap, nodeMapFrom, groupColors]

/-- C2: the claim fails on the code.  `_buildEdges` has no error reporting:
resolving an edge whose `to` identity ("ghost") is absent from the node set
silently yields a connection record with an unresolved endpoint
(`toIdx = none`, the undefined index of the source), instead of rejecting
it or reporting a diagnostic. -/
theorem c2_dangling_edge_silent :
    buildEdges (layoutNodes 800 600 oracle1 nodesData) [("core", "ghost")] =
      [{ fromIdx := some 0, toIdx := none }] := by
  simp +decide [buildEdges, nodeMap, nodeMapFrom, layoutNodes, layoutNodesFrom,
    layoutNode, nodesData, oracle1]

/-- C3: the claim fails on the code.  After `destroy()` the pending frame
is indeed cancelled (no further frames run), and a second `destroy()` is a
harmless no-op — but the click/touch handlers are never unregistered and
check no liveness flag, so a stray click that hits a node still toggles it
and still pushes metrics (`_updateHUD` runs once) after teardown.  This
theorem evaluates the model at that failing input: a click at the active
node "core" of the destroyed shipped instance. -/
theorem c3_destroyed_instance_still_reacts :
    stateDestroyed.pendingFrame = false ∧
    frameStep oracle1 stateDestroyed = stateDestroyed ∧
    destroyStep stateDestroyed = stateDestroyed ∧
    (clickStep 400 270 stateDestroyed).2 = 1 ∧
    ((clickStep 400 270 stateDestroyed).1.nodes.get? 0).map (fun n => n.active) =
      some false := by
  have hA : stateAfterClick.animId = some 1 := by
    simp [stateAfterClick, clickStep, construct, animateOnce]
  have h1 : stateDestroyed.pendingFrame = false := by
    simp [stateDestroyed, destroyStep, hA]
  have h2 : destroyStep stateDestroyed = stateDestroyed := by
    have hA2 : stateDestroyed.animId = some 1 := by
      simp [stateDestroyed, destroyStep, hA]
    simp only [destroyStep, hA2]
    cases hd : stateDestroyed
    rw [hd] at hA2 h1
    simp only at hA2 h1
    simp [State.mk.injEq, hA2, h1]
  refine ⟨h1, by simp [frameStep, h1], h2, ?_, ?_⟩
  · norm_num +decide [stateDestroyed, destroyStep, stateAfterClick, clickStep,
      toggleFirstHit, hitTest, clickTol, construct, animateOnce, layoutNodes,
      layoutNodesFrom, layoutNode, nodesData, edgesData, oracle1, buildEdges,
      nodeMap, nodeMapFrom, groupColors]
  · norm_num +decide [stateDestroyed, destroyStep, stateAfterClick, clickStep,
      toggleFirstHit, hitTest, clickTol, construct, animateOnce, layoutNodes,
      layoutNodesFrom, layoutNode, nodesData, edgesData, oracle1, buildEdges,
      nodeMap, nodeMapFrom, groupColors]

/-- C4: on every completed metrics recomputation the published load string
is `Math.round(100 * activeCount / totalCount)` followed by a percent sign;
a 12-node state with exactly 3 active nodes publishes "25%"; and in the
shipped instance a single click on node "core" from the initial state
triggers exactly one metrics push, which reports "1 / 12" active,
"0" connections and "8%" load. -/
theorem c4_load_percentage :
    (∀ (nodes : List Node) (edges : List Edge) (m : Metrics),
        updateHUD nodes edges = some m →
        m.loadText =
          toString (jsRound (100 * (activeCount nodes : ℚ) / (nodes.length : ℚ))) ++ "%") ∧
    (∀ (nodes : List Node) (edges : List Edge) (m : Metrics),
        updateHUD nodes edges = some m → nodes.length = 12 → activeCount nodes = 3 →
        m.loadText = "25%") ∧
    ((clickStep 400 270 (construct oracle1 800 600 nodesData edgesData).state).2 = 1 ∧
      updateHUD stateAfterClick.nodes stateAfterClick.edges =
        some ⟨"1 / 12", "0", "8%"⟩) := by
  refine ⟨?_, ?_, ?_, ?_⟩
  · intro nodes edges m hm
    obtain ⟨kept, hk, rfl⟩ := updateHUD_inv nodes edges m hm
    simp only
    rw [loadPercent_eq]
  · intro nodes edges m hm h12 h3
    obtain ⟨kept, hk, rfl⟩ := updateHUD_inv nodes edges m hm
    simp only
    rw [h12, h3]
    have h25 : loadPercent 3 12 = 25 := by norm_num [loadPercent, jsRound]
    rw [h25]
    rfl
  · norm_num +decide [clickStep, toggleFirstHit, hitTest, clickTol, construct,
      animateOnce, layoutNodes, layoutNodesFrom, layoutNode, nodesData, edgesData,
      oracle1, buildEdges, nodeMap, nodeMapFrom, groupColors]
  · have h8 : loadPercent 1 12 = 8 := by norm_num [loadPercent, jsRound]
    norm_num +decide [stateAfterClick, clickStep, toggleFirstHit, hitTest, clickTol,
      construct, animateOnce, updateHUD, filterBothActive, edgeBothActive,
      activeCount, layoutNodes, layoutNodesFrom, layoutNode, nodesData, edgesData,
      oracle1, buildEdges, nodeMap, nodeMapFrom, groupColors, h8]

/-- C4 witness: the 25-percent clause applied to a concrete 12-node list
with its first three nodes active. -/
theorem c4_witness : updateHUD nodes12 [] = some ⟨"3 / 12", "0", "25%"⟩ ∧
    (⟨"3 / 12", "0", "25%"⟩ : Metrics).loadText = "25%" := by
  have hm : updateHUD nodes12 [] = some ⟨"3 / 12", "0", "25%"⟩ := by
    have h : loadPercent 3 12 = 25 := by norm_num [loadPercent, jsRound]
    simp [updateHUD, filterBothActive, nodes12, nodeW, activeCount, h]
    exact ⟨rfl, rfl, rfl⟩
  exact ⟨hm, c4_load_percentage.2.1 nodes12 [] _ hm (by simp [nodes12])
    (by simp [nodes12, nodeW, activeCount])⟩

/-- C5: a connection's derived both-active flag, as evaluated by
`_updateHUD` and `_drawEdges`, is true exactly when both resolved endpoint
nodes are active, and the published connection count is the number of edges
whose evaluation came out true. -/
theorem c5_both_active_iff :
    (∀ (nodes : List Node) (e : Edge) (i j : Nat) (a b : Node),
        e.fromIdx = some i → e.toIdx = some j →
        nodes.get? i = some a → nodes.get? j = some b →
        (edgeBothActive nodes e = some true ↔ (a.active = true ∧ b.active = true))) ∧
    (∀ (nodes : List Node) (edges : List Edge) (m : Metrics),
        updateHUD nodes edges = some m →
        m.connectionsText =
          toString ((edges.filter (fun e => edgeBothActive nodes e == some true)).length)) := by
  constructor
  · intro nodes e i j a b hf ht hga hgb
    simp only [edgeBothActive, hf, ht, Option.some_bind, hga, hgb]
    cases ha : a.active <;> cases hb : b.active <;> simp
  · intro nodes edges m hm
    obtain ⟨kept, hk, rfl⟩ := updateHUD_inv nodes edges m hm
    simp only
    rw [filterBothActive_eq_filter nodes edges kept hk]

/-- C5 witness: the both-active equivalence applied to a concrete edge
joining two active nodes. -/
theorem c5_witness : edgeBothActive nodes2 edgeW = some true :=
  (c5_both_active_iff.1 nodes2 edgeW 0 1 (nodeW "a" true) (nodeW "b" true)
    rfl rfl rfl rfl).mpr ⟨rfl, rfl⟩

/-- C6: for every constructed instance over any node list and any edge list
whose endpoints all resolve, every node starts inactive, and the first
metrics publication (the `_updateHUD` call at the end of `_bindEvents`)
reports 0 active nodes, 0 active connections and 0 percent load.  The
hypothesis that the node list is nonempty keeps the statement inside the
model's domain: on an empty list the source would divide 0 by 0 and
publish a NaN load. -/
theorem c6_initial_state (o : Oracles) (w h : ℚ) (nd : List NodeData)
    (ed : List (String × String)) (_hn : 0 < nd.length)
    (hval : ∀ e ∈ buildEdges (layoutNodes w h o nd) ed,
        (e.fromIdx.bind (layoutNodes w h o nd).get?).isSome ∧
        (e.toIdx.bind (layoutNodes w h o nd).get?).isSome) :
    (∀ n ∈ (construct o w h nd ed).state.nodes, n.active = false) ∧
    (construct o w h nd ed).published =
      some { activeText := "0 / " ++ toString nd.length,
             connectionsText := "0", loadText := "0%" } := by
  constructor
  · intro n hn2
    simp only [construct, animateOnce, List.mem_map] at hn2
    obtain ⟨p, hp, rfl⟩ := hn2
    exact layoutNodes_active w h o nd p hp
  · have hfil : filterBothActive (layoutNodes w h o nd) (buildEdges (layoutNodes w h o nd) ed) =
        some [] :=
      filterBothActive_of_inactive _ _ (layoutNodes_active w h o nd)
        (fun e he => (hval e he).1)
    have hpub := updateHUD_eq (layoutNodes w h o nd)
      (buildEdges (layoutNodes w h o nd) ed) [] hfil
    have hz : activeCount (layoutNodes w h o nd) = 0 :=
      activeCount_eq_zero _ (layoutNodes_active w h o nd)
    simp only [construct]
    rw [hpub, hz, layoutNodes_length, loadPercent_zero]
    rfl

/-- C6 witness: the initial publication of the shipped 12-node, 17-edge
instance. -/
theorem c6_witness :
    (construct oracle1 800 600 nodesData edgesData).published =
      some { activeText := "0 / " ++ toString nodesData.length,
             connectionsText := "0", loadText := "0%" } :=
  (c6_initial_state oracle1 800 600 nodesData edgesData (by decide)
    (by decide)).2

/-- C7: for every click event and every tap event: a click (and likewise a
tap, at its larger tolerance) whose first hit is the node at index `i`
triggers exactly one metrics resync and flips exactly that node's active
flag — its other fields and every other node (hence all positions and
identities) are untouched — while a click (tap) that hits no node leaves
the state unchanged and triggers no resync. -/
theorem c7_click_tap_toggles (s : State) (mx my : ℚ) :
    (∀ (i : Nat) (n : Node), firstHitAt mx my clickTol s.nodes i n →
        (clickStep mx my s).2 = 1 ∧
        (clickStep mx my s).1.nodes.get? i = some { n with active := !n.active } ∧
        (∀ j, j ≠ i → (clickStep mx my s).1.nodes.get? j = s.nodes.get? j)) ∧
    ((∀ n ∈ s.nodes, hitTest mx my n clickTol = false) →
        (clickStep mx my s).1 = s ∧ (clickStep mx my s).2 = 0) ∧
    (∀ (i : Nat) (n : Node), firstHitAt mx my touchTol s.nodes i n →
        (touchStep mx my s).2 = 1 ∧
        (touchStep mx my s).1.nodes.get? i = some { n with active := !n.active } ∧
        (∀ j, j ≠ i → (touchStep mx my s).1.nodes.get? j = s.nodes.get? j)) ∧
    ((∀ n ∈ s.nodes, hitTest mx my n touchTol = false) →
        (touchStep mx my s).1 = s ∧ (touchStep mx my s).2 = 0) := by
  refine ⟨?_, ?_, ?_, ?_⟩
  · intro i n h
    obtain ⟨h1, h2, h3⟩ := toggleFirstHit_of_hit mx my clickTol s.nodes i n h
    exact ⟨by simp [clickStep, h1], h2, h3⟩
  · intro hmiss
    have hm := toggleFirstHit_of_miss mx my clickTol s.nodes hmiss
    exact ⟨by simp [clickStep, hm], by simp [clickStep, hm]⟩
  · intro i n h
    obtain ⟨h1, h2, h3⟩ := toggleFirstHit_of_hit mx my touchTol s.nodes i n h
    exact ⟨by simp [touchStep, h1], h2, h3⟩
  · intro hmiss
    have hm := toggleFirstHit_of_miss mx my touchTol s.nodes hmiss
    exact ⟨by simp [touchStep, hm], by simp [touchStep, hm]⟩

/-- C7 witness: on a concrete two-node state, a click and a tap at the
origin (where the first node sits) each resync once and activate exactly
that node, while a click and a tap far from both nodes each leave the
state unchanged and resync zero times. -/
theorem c7_witness :
    ((clickStep 0 0 stateW).2 = 1 ∧
      (clickStep 0 0 stateW).1.nodes.get? 0 =
        some { nodeW "a" false with active := true }) ∧
    ((touchStep 0 0 stateW).2 = 1 ∧
      (touchStep 0 0 stateW).1.nodes.get? 0 =
        some { nodeW "a" false with active := true }) ∧
    ((clickStep 1000 1000 stateW).1 = stateW ∧ (clickStep 1000 1000 stateW).2 = 0) ∧
    ((touchStep 1000 1000 stateW).1 = stateW ∧ (touchStep 1000 1000 stateW).2 = 0) := by
  have hc := (c7_click_tap_toggles stateW 0 0).1 0 (nodeW "a" false)
    ⟨rfl, by norm_num [hitTest, nodeW, clickTol],
      fun j hj m hm => absurd hj (Nat.not_lt_zero j)⟩
  have ht := (c7_click_tap_toggles stateW 0 0).2.2.1 0 (nodeW "a" false)
    ⟨rfl, by norm_num [hitTest, nodeW, touchTol],
      fun j hj m hm => absurd hj (Nat.not_lt_zero j)⟩
  have hmc := (c7_click_tap_toggles stateW 1000 1000).2.1 (by
    intro n hn
    simp only [stateW, List.mem_cons, List.not_mem_nil, or_false] at hn
    rcases hn with rfl | rfl <;> norm_num [hitTest, nodeW, clickTol])
  have hmt := (c7_click_tap_toggles stateW 1000 1000).2.2.2 (by
    intro n hn
    simp only [stateW, List.mem_cons, List.not_mem_nil, or_false] at hn
    rcases hn with rfl | rfl <;> norm_num [hitTest, nodeW, touchTol])
  exact ⟨⟨hc.1, hc.2.1⟩, ⟨ht.1, ht.2.1⟩, hmc, hmt⟩

/-- C8: from any state, activating all nodes and then resetting all nodes
leaves an active count of zero, and each bulk operation performs exactly
one metrics resync whatever the node count. -/
theorem c8_activate_then_reset (s : State) :
    activeCount ((resetAllStep (activateAllStep s).1).1).nodes = 0 ∧
    (activateAllStep s).2 = 1 ∧ (resetAllStep (activateAllStep s).1).2 = 1 := by
  refine ⟨?_, rfl, rfl⟩
  apply activeCount_eq_zero
  intro n hn
  simp only [resetAllStep, activateAllStep, List.mem_map] at hn
  obtain ⟨m, hm, rfl⟩ := hn
  rfl

/-- C9: the hit test succeeds exactly when the Euclidean distance from the
pointer to the node's current rendered position is below radius plus
tolerance; the touch tolerance strictly exceeds the fine-pointer
tolerance; a pointer at a node's rendered center always hits it; and a
pointer at squared distance at least the squared hit radius from every
node hits none (neither for hover nor for the toggle loop). -/
theorem c9_hit_test :
    (∀ (n : Node) (mx my tol : ℚ), 0 < n.radius + tol →
        (hitTest mx my n tol = true ↔
          Real.sqrt (((mx - n.x) * (mx - n.x) + (my - n.y) * (my - n.y) : ℚ) : ℝ) <
            ((n.radius + tol : ℚ) : ℝ))) ∧
    clickTol < touchTol ∧
    (∀ n : Node, 0 ≤ n.radius →
        hitTest n.x n.y n clickTol = true ∧ hitTest n.x n.y n touchTol = true) ∧
    (∀ (l : List Node) (mx my tol : ℚ),
        (∀ n ∈ l, (n.radius + tol) * (n.radius + tol) ≤
          (mx - n.x) * (mx - n.x) + (my - n.y) * (my - n.y)) →
        firstHit mx my tol l = none ∧ toggleFirstHit mx my tol l = (l, false)) := by
  refine ⟨?_, ?_, ?_, ?_⟩
  · intro n mx my tol hpos
    have hcast : (0 : ℝ) < ((n.radius + tol : ℚ) : ℝ) := by exact_mod_cast hpos
    rw [Real.sqrt_lt' hcast, pow_two]
    simp only [hitTest, Bool.and_eq_true, decide_eq_true_eq]
    constructor
    · rintro ⟨-, h2⟩
      exact_mod_cast h2
    · intro h2
      exact ⟨hpos, by exact_mod_cast h2⟩
  · norm_num [clickTol, touchTol]
  · intro n hr
    constructor <;>
      simp only [hitTest, Bool.and_eq_true, decide_eq_true_eq, sub_self, mul_zero,
        add_zero, clickTol, touchTol] <;>
      constructor <;> nlinarith
  · intro l mx my tol hfar
    have hmiss : ∀ n ∈ l, hitTest mx my n tol = false := by
      intro n hn
      have hq : ¬((mx - n.x) * (mx - n.x) + (my - n.y) * (my - n.y) <
          (n.radius + tol) * (n.radius + tol)) := not_lt.mpr (hfar n hn)
      simp [hitTest, hq]
    exact ⟨firstHit_of_miss mx my tol l hmiss, toggleFirstHit_of_miss mx my tol l hmiss⟩

/-- C9 witness: the distance equivalence and the center-hit clause applied
to a concrete node of radius 22 at the origin. -/
theorem c9_witness :
    (hitTest 0 0 (nodeW "a" false) clickTol = true ↔
      Real.sqrt ((((0 : ℚ) - (nodeW "a" false).x) * (0 - (nodeW "a" false).x) +
        (0 - (nodeW "a" false).y) * (0 - (nodeW "a" false).y) : ℚ) : ℝ) <
        (((nodeW "a" false).radius + clickTol : ℚ) : ℝ)) ∧
    hitTest (nodeW "a" false).x (nodeW "a" false).y (nodeW "a" false) clickTol = true := by
  constructor
  · exact c9_hit_test.1 (nodeW "a" false) 0 0 clickTol (by norm_num [nodeW, clickTol])
  · exact (c9_hit_test.2.2.1 (nodeW "a" false) (by norm_num [nodeW])).1

/-- C10: a click or tap toggles at most one node even when the pointer lies
inside several overlapping hit radii: the handler loop stops at the first
hit in declaration order, the same first-match rule the hover loop uses. -/
theorem c10_first_match (s : State) (mx my : ℚ) (i : Nat) (n : Node) :
    (firstHitAt mx my clickTol s.nodes i n →
        (clickStep mx my s).1.nodes.get? i = some { n with active := !n.active } ∧
        ∀ j, j ≠ i → (clickStep mx my s).1.nodes.get? j = s.nodes.get? j) ∧
    (firstHitAt mx my touchTol s.nodes i n →
        (touchStep mx my s).1.nodes.get? i = some { n with active := !n.active } ∧
        ∀ j, j ≠ i → (touchStep mx my s).1.nodes.get? j = s.nodes.get? j) ∧
    (firstHitAt mx my clickTol s.nodes i n →
        (updateHover { s with mouse := (mx, my) }).hoveredNode = some i) := by
  refine ⟨?_, ?_, ?_⟩
  · intro h
    obtain ⟨-, h2, h3⟩ := toggleFirstHit_of_hit mx my clickTol s.nodes i n h
    exact ⟨h2, h3⟩
  · intro h
    obtain ⟨-, h2, h3⟩ := toggleFirstHit_of_hit mx my touchTol s.nodes i n h
    exact ⟨h2, h3⟩
  · intro h
    simp only [updateHover]
    exact firstHit_of_firstHitAt mx my clickTol s.nodes i n h

/-- C10 witness: in a state with two nodes both at the origin (overlapping
hit areas, both hit by a click at the origin), only the first node in
declaration order is toggled; the second, though hit, is unchanged. -/
theorem c10_witness :
    (clickStep 0 0 stateW).1.nodes.get? 0 =
      some { nodeW "a" false with active := true } ∧
    (clickStep 0 0 stateW).1.nodes.get? 1 = some (nodeW "b" false) ∧
    hitTest 0 0 (nodeW "b" false) clickTol = true := by
  have hfa : firstHitAt 0 0 clickTol stateW.nodes 0 (nodeW "a" false) :=
    ⟨rfl, by norm_num [hitTest, nodeW, clickTol],
      fun j hj m hm => absurd hj (Nat.not_lt_zero j)⟩
  have h := (c10_first_match stateW 0 0 0 (nodeW "a" false)).1 hfa
  refine ⟨h.1, ?_, by norm_num [hitTest, nodeW, clickTol]⟩
  rw [h.2 1 one_ne_zero]
  rfl

end SystemViz
